import Mathlib

/-!
Shallow embedding of `scanner.py` (the Nova phone-number scanner) and proofs
about it.  The embedding covers:

* the rule engine `check_number_rules` (scanner.py lines 68-120),
* the worker `worker_task` (lines 432-451), and
* the scheduling loop of `main` (lines 453-513), modelled as a trace-producing
  function over a given per-round completion order of worker results and a
  stream of operator inputs.

Python strings are modelled as Lean `String`; Python `sub in s` is modelled by
an explicit substring search `strContains`; the regexes `(\d)\1{3,}` and
`(\d)\1{2,}` are modelled by `hasDigitRun 4` / `hasDigitRun 3` (a run of k or
more identical digit characters exists iff some digit repeated k times occurs
as a contiguous substring).  The module-level rule toggles and the literal
target list are gathered into a `RuleConfig` record so that claims quantifying
over toggle settings can be stated; `defaultConfig` is the configuration
literally present in the source.
-/

namespace NovaScanner

/-- Does the second list start with the first list?  (Substring match anchored
at the current position.) -/
def prefixMatches : List Char → List Char → Bool
  | [], _ => true
  | _ :: _, [] => false
  | a :: as, b :: bs => (a == b) && prefixMatches as bs

/-- Does `sub` occur as a contiguous sublist of `l`? -/
def containsSub (sub : List Char) : List Char → Bool
  | [] => prefixMatches sub []
  | c :: cs => prefixMatches sub (c :: cs) || containsSub sub cs

/-- Model of Python `sub in s` for strings: `sub` occurs contiguously in `s`. -/
def strContains (s sub : String) : Bool :=
  containsSub sub.toList s.toList

/-- The rule configuration: the four module-level toggles and the literal
target list of scanner.py lines 29-41. -/
structure RuleConfig where
  ENABLE_A4 : Bool
  ENABLE_A3 : Bool
  ENABLE_ABC : Bool
  ENABLE_ABCD : Bool
  CUSTOM_TARGETS : List String
deriving DecidableEq

/-- The literal target list configured in the source (scanner.py line 36). -/
def CUSTOM_TARGETS : List String := ["888", "666", "520", "1314"]

/-- The configuration literally present in scanner.py lines 29-41. -/
def defaultConfig : RuleConfig :=
  ⟨true, true, false, true, CUSTOM_TARGETS⟩

/-- scanner.py line 91. -/
def forward_seq : String := "0123456789"

/-- scanner.py line 92. -/
def backward_seq : String := "9876543210"

/-- The ten digit characters (the character class `\d` restricted to ASCII,
which is all that can occur in a phone-number candidate). -/
def digitChars : List Char := forward_seq.toList

/-- Model of `re.search((\d)\1{k-1,}, phone)` being truthy: some digit
repeated `k` times occurs contiguously in `phone` (equivalently, `phone`
contains a run of `k` or more identical digits). -/
def hasDigitRun (k : Nat) (phone : String) : Bool :=
  digitChars.any (fun d => containsSub (List.replicate k d) phone.toList)

/-- Python slice `seq[i:i+w]`. -/
def slice (s : String) (i w : Nat) : String :=
  String.mk ((s.toList.drop i).take w)

/-- The windows `seq[i:i+w]` for `i in range(len(seq) - (w - 1))`, exactly the
windows enumerated by the loops at scanner.py lines 95-118. -/
def seqWindows (seq : String) (w : Nat) : List String :=
  (List.range (seq.length + 1 - w)).map (fun i => slice seq i w)

/-- The first window of width `w` of `seq` that occurs in `phone`, in loop
order — models the `for i in range(...): if seq[i:i+w] in phone_number` loops
of scanner.py. -/
def findSeqRun (seq : String) (w : Nat) (phone : String) : Option String :=
  (seqWindows seq w).find? (fun sub => strContains phone sub)

/-- The first configured literal target that occurs in `phone`, in configured
list order — models the loop at scanner.py lines 78-80. -/
def findCustomTarget (targets : List String) (phone : String) : Option String :=
  targets.find? (fun target => strContains phone target)

/-- A single-quote character, used in the custom-target reason string. -/
def squote : String := String.singleton (Char.ofNat 39)

/-- Reason string of scanner.py line 73 (the spec calls it "empty input"). -/
def reasonEmpty : String := "号码为空"

/-- Reason string of scanner.py line 120 (the spec calls it "ordinary number"). -/
def reasonOrdinary : String := "普通号码"

/-- Reason string of scanner.py line 80. -/
def reasonCustom (target : String) : String :=
  "符合自定义目标: 包含 " ++ squote ++ target ++ squote

/-- Reason string of scanner.py line 84. -/
def reasonA4 : String := "符合规则: A4连号 (发现连续4位重复数字)"

/-- Reason string of scanner.py line 88. -/
def reasonA3 : String := "符合规则: A3连号 (发现连续3位重复数字)"

/-- Reason string of scanner.py line 97. -/
def reasonF5 (sub : String) : String := "符合规则: 正向5位连号 (" ++ sub ++ ")"

/-- Reason string of scanner.py line 100. -/
def reasonB5 (sub : String) : String := "符合规则: 反向5位连号 (" ++ sub ++ ")"

/-- Reason string of scanner.py line 106. -/
def reasonF4 (sub : String) : String := "符合规则: 正向4位连号 (" ++ sub ++ ")"

/-- Reason string of scanner.py line 109. -/
def reasonB4 (sub : String) : String := "符合规则: 反向4位连号 (" ++ sub ++ ")"

/-- Reason string of scanner.py line 115. -/
def reasonF3 (sub : String) : String := "符合规则: 正向3位连号 (" ++ sub ++ ")"

/-- Reason string of scanner.py line 118. -/
def reasonB3 (sub : String) : String := "符合规则: 反向3位连号 (" ++ sub ++ ")"

/-- The rule cascade of `check_number_rules` after the emptiness guard
(scanner.py lines 77-120), for a non-empty candidate string.  Each arm mirrors
one `return` of the source, in source order. -/
def check_rules_core (cfg : RuleConfig) (phone : String) : Bool × String :=
  match findCustomTarget cfg.CUSTOM_TARGETS phone with
  | some target => (true, reasonCustom target)
  | none =>
    if cfg.ENABLE_A4 && hasDigitRun 4 phone then (true, reasonA4)
    else if cfg.ENABLE_A3 && hasDigitRun 3 phone then (true, reasonA3)
    else
      match findSeqRun forward_seq 5 phone with
      | some sub => (true, reasonF5 sub)
      | none =>
        match findSeqRun backward_seq 5 phone with
        | some sub => (true, reasonB5 sub)
        | none =>
          match (if cfg.ENABLE_ABCD then findSeqRun forward_seq 4 phone else none) with
          | some sub => (true, reasonF4 sub)
          | none =>
            match (if cfg.ENABLE_ABCD then findSeqRun backward_seq 4 phone else none) with
            | some sub => (true, reasonB4 sub)
            | none =>
              match (if cfg.ENABLE_ABC then findSeqRun forward_seq 3 phone else none) with
              | some sub => (true, reasonF3 sub)
              | none =>
                match (if cfg.ENABLE_ABC then findSeqRun backward_seq 3 phone else none) with
                | some sub => (true, reasonB3 sub)
                | none => (false, reasonOrdinary)

/-- Model of `check_number_rules` (scanner.py lines 68-120).  The input is an
`Option String` so that Python `None` is representable; `none` and the empty
string both fail the truthiness guard `if not phone_number` and classify as
non-matching with the empty-input reason, before any rule is evaluated. -/
def check_number_rules (cfg : RuleConfig) (phone_number : Option String) : Bool × String :=
  match phone_number with
  | none => (false, reasonEmpty)
  | some s => if s = "" then (false, reasonEmpty) else check_rules_core cfg s

example : check_number_rules defaultConfig (some ("88812345")) =
    (true, reasonCustom ("888")) := by decide

example : check_number_rules defaultConfig (some ("77771234")) = (true, reasonA4) := by decide

example : check_number_rules defaultConfig (some ("13579")) = (false, reasonOrdinary) := by decide

example : check_number_rules ⟨false, false, false, false, CUSTOM_TARGETS⟩ (some ("12345")) =
    (true, reasonF5 ("12345")) := by decide

/-!
Worker model.  `search_single_number` (scanner.py lines 170-196) returns either
a pair `(number, raw_response)` or `(None, None)`; any exception escaping into
`worker_task` (scanner.py lines 432-451) is the third possibility.  The three
cases are the `FetchOutcome` constructors; `worker_task` is then a total
function of the fetch outcome, mirroring the `try/except` body.  `α` is the
type of the raw response payload (opaque to the worker logic).
-/

/-- What one call of `client.search_single_number()` did, as observed by
`worker_task`: produced a candidate and a raw payload, produced `(None, None)`
(query failure or empty result, both absorbed inside the client), or raised an
exception that escapes into `worker_task`. -/
inductive FetchOutcome (α : Type) where
  | ok : String → α → FetchOutcome α
  | empty : FetchOutcome α
  | exn : FetchOutcome α
deriving DecidableEq

/-- The dict returned by `worker_task`: a `status` string plus the optional
`number` / `reason` / `response` fields present only in the FOUND dict. -/
structure WorkerResult (α : Type) where
  status : String
  number : Option String
  reason : Option String
  response : Option α
deriving DecidableEq

/-- The bare dict `{"status": "RETRY"}` (scanner.py line 449). -/
def retryResult (α : Type) : WorkerResult α := ⟨"RETRY", none, none, none⟩

/-- The bare dict `{"status": "ERROR"}` (scanner.py line 451). -/
def errorResult (α : Type) : WorkerResult α := ⟨"ERROR", none, none, none⟩

/-- Model of `worker_task` (scanner.py lines 432-451).  The `try` body runs the
query; a truthy candidate is classified and a match yields the FOUND dict;
otherwise RETRY; the `except` arm yields ERROR.  Totality of this function is
the model of "no exception propagates out of `worker_task`". -/
def worker_task {α : Type} (cfg : RuleConfig) (fetch : FetchOutcome α) : WorkerResult α :=
  match fetch with
  | FetchOutcome.exn => errorResult α
  | FetchOutcome.empty => retryResult α
  | FetchOutcome.ok number raw =>
    if number = "" then retryResult α
    else
      let res := check_number_rules cfg (some number)
      if res.1 then ⟨"FOUND", some number, some res.2, some raw⟩
      else retryResult α

/-!
Scheduler model.  `main` (scanner.py lines 453-513) loops forever: submit
`CONCURRENT_WORKERS` tasks, then consume their results in completion order via
`as_completed`; each consumed result increments the session counters; a FOUND
result additionally prints the match and blocks on `input()` (the operator
gate) right there, inside the consumption loop; the answer `q` (after
strip/lower) calls `sys.exit(0)`, anything else resumes; after the round a
fixed `time.sleep` runs and a new round is submitted.

The model makes the nondeterministic completion order explicit: each round is
a list of `WorkerResult`s in completion order, and the operator's successive
answers are a stream `inputs : Nat → String` indexed by gate occurrence.  The
observable behaviour is a trace of events: `dispatch n` (a round of `n`
workers submitted), `count st` (one result consumed and the session attempt
counters incremented; `st` is its status), `gate` (the match printed and the
operator prompted), `exit c` (the process terminated with exit code `c`), and
`sleep` (the inter-round pacing delay).
-/

/-- Events observable from the scheduling loop of `main`. -/
inductive Ev where
  | dispatch : Nat → Ev
  | count : String → Ev
  | gate : Ev
  | exit : Nat → Ev
  | sleep : Ev
deriving DecidableEq

/-- The operator's decision at the gate. -/
inductive Decision where
  | Continue
  | Stop
deriving DecidableEq

/-- Model of Python `str.strip()` on the left: drop leading whitespace. -/
def stripLeft : List Char → List Char
  | [] => []
  | c :: cs => if c.isWhitespace then stripLeft cs else c :: cs

/-- Model of Python `str.strip()`: drop leading and trailing whitespace. -/
def pyStrip (s : String) : String :=
  String.mk ((stripLeft ((stripLeft s.toList).reverse)).reverse)

/-- Model of Python `str.lower()` (candidate inputs are ASCII). -/
def pyLower (s : String) : String := String.mk (s.toList.map Char.toLower)

/-- Interpretation of the operator's raw input at the gate (scanner.py lines
501-506): `input(...).strip().lower() == 'q'` means stop, anything else —
including the empty string — means continue. -/
def decideInput (s : String) : Decision :=
  if pyLower (pyStrip s) = "q" then Decision.Stop else Decision.Continue

/-- Consumption of one round's results in completion order (the
`for future in as_completed(futures)` loop, scanner.py lines 474-510).
Arguments: the results still to consume, the operator input stream, and the
index of the next gate occurrence.  Returns the emitted trace, the next gate
index, and whether `sys.exit(0)` was reached. -/
def processRound {α : Type} (results : List (WorkerResult α)) (inputs : Nat → String)
    (g : Nat) : List Ev × Nat × Bool :=
  match results with
  | [] => ([], g, false)
  | res :: rest =>
    if res.status = "FOUND" then
      match decideInput (inputs g) with
      | Decision.Stop => ([Ev.count res.status, Ev.gate, Ev.exit 0], g + 1, true)
      | Decision.Continue =>
        let pr := processRound rest inputs (g + 1)
        (Ev.count res.status :: Ev.gate :: pr.1, pr.2.1, pr.2.2)
    else
      let pr := processRound rest inputs g
      (Ev.count res.status :: pr.1, pr.2.1, pr.2.2)

/-- The scheduling loop of `main` over a given (finite prefix of) rounds, each
with its completion order, threading the gate index.  Emits `dispatch` at each
round start and `sleep` after each fully consumed round; stops early when a
round reached `sys.exit(0)`. -/
def schedAux {α : Type} (rounds : List (List (WorkerResult α))) (inputs : Nat → String)
    (g : Nat) : List Ev :=
  match rounds with
  | [] => []
  | r :: rest =>
    let pr := processRound r inputs g
    if pr.2.2 then Ev.dispatch r.length :: pr.1
    else Ev.dispatch r.length :: pr.1 ++ Ev.sleep :: schedAux rest inputs pr.2.1

/-- The scheduling loop started with gate index 0. -/
def sched {α : Type} (rounds : List (List (WorkerResult α))) (inputs : Nat → String) :
    List Ev :=
  schedAux rounds inputs 0

/-- Recognizer for counter-increment events. -/
def isCountEv : Ev → Bool
  | Ev.count _ => true
  | _ => false

/-- Recognizer for gate events. -/
def isGateEv : Ev → Bool
  | Ev.gate => true
  | _ => false

/-- The ordering property asserted by the spec for a round containing a match:
every counter-increment event of the trace precedes every gate event. -/
def countsPrecedeGates (tr : List Ev) : Prop :=
  ∀ i j : Fin tr.length, isCountEv (tr.get i) = true → isGateEv (tr.get j) = true →
    (i : Nat) < (j : Nat)

instance (tr : List Ev) : Decidable (countsPrecedeGates tr) := by
  unfold countsPrecedeGates
  infer_instance

/-- The spec's scheduler scenario, concurrency 10: one worker returns a match
and completes first, the remaining nine return RETRY. -/
def scenarioRound : List (WorkerResult Unit) :=
  WorkerResult.mk ("FOUND") (some ("88812345")) (some (reasonCustom ("888"))) (some ()) ::
    List.replicate 9 (retryResult Unit)

/-- The trace of that single round when the operator answers with an empty
line (continue). -/
def scenarioTrace : List Ev := sched [scenarioRound] (fun _ => "")

example : scenarioTrace =
    Ev.dispatch 10 :: Ev.count ("FOUND") :: Ev.gate ::
      (List.replicate 9 (Ev.count ("RETRY")) ++ [Ev.sleep]) := by decide

/-! Helper lemmas about substring containment. -/

theorem prefixMatches_append (l r : List Char) : prefixMatches l (l ++ r) = true := by
  induction l with
  | nil => rfl
  | cons c cs ih => simp [prefixMatches, ih]

theorem containsSub_of_prefixMatches (sub l : List Char) (h : prefixMatches sub l = true) :
    containsSub sub l = true := by
  cases l with
  | nil => simpa [containsSub] using h
  | cons c cs => simp [containsSub, h]

theorem containsSub_append_left (sub pre l : List Char) (h : containsSub sub l = true) :
    containsSub sub (pre ++ l) = true := by
  induction pre with
  | nil => simpa using h
  | cons x xs ih => simp [containsSub, ih]

/-- A string built as `a ++ sub ++ b` contains `sub`.  Used to show that the
reason strings built from a matched run substring do contain that substring. -/
theorem strContains_mid (a sub b : String) : strContains (a ++ sub ++ b) sub = true := by
  show containsSub sub.toList ((a ++ sub ++ b) : String).toList = true
  have hl : ((a ++ sub ++ b) : String).toList = a.toList ++ (sub.toList ++ b.toList) := by
    show (a.data ++ sub.data) ++ b.data = a.data ++ (sub.data ++ b.data)
    exact List.append_assoc _ _ _
  rw [hl]
  exact containsSub_append_left _ _ _
    (containsSub_of_prefixMatches _ _ (by
      have : sub.toList ++ b.toList = sub.toList ++ b.toList := rfl
      exact prefixMatches_append sub.toList b.toList))

/-- Every sequence-rule reason string contains the matched run substring. -/
theorem reason_contains_sub (pre sub : String) :
    strContains (pre ++ sub ++ ")") sub = true :=
  strContains_mid pre sub (")")

/-- The custom-target reason string contains the cited target. -/
theorem reasonCustom_contains (target : String) :
    strContains (reasonCustom target) target = true :=
  strContains_mid ("符合自定义目标: 包含 " ++ squote) target squote

/-! Forward evaluation lemmas for the rule cascade. -/

/-- If some configured literal target occurs in the candidate, the cascade
stops at the literal-target rule with the first such target. -/
theorem check_core_custom (cfg : RuleConfig) (s : String) (t : String)
    (h : findCustomTarget cfg.CUSTOM_TARGETS s = some t) :
    check_rules_core cfg s = (true, reasonCustom t) := by
  unfold check_rules_core
  rw [h]

/-- If no literal target occurs and the A4 rule fires, the cascade stops at
the A4 rule. -/
theorem check_core_A4 (cfg : RuleConfig) (s : String)
    (hct : findCustomTarget cfg.CUSTOM_TARGETS s = none)
    (h4 : (cfg.ENABLE_A4 && hasDigitRun 4 s) = true) :
    check_rules_core cfg s = (true, reasonA4) := by
  unfold check_rules_core
  rw [hct]
  simp [h4]

/-- If no literal target occurs, the A4 rule does not fire and the A3 rule
fires, the cascade stops at the A3 rule. -/
theorem check_core_A3 (cfg : RuleConfig) (s : String)
    (hct : findCustomTarget cfg.CUSTOM_TARGETS s = none)
    (h4 : (cfg.ENABLE_A4 && hasDigitRun 4 s) = false)
    (h3 : (cfg.ENABLE_A3 && hasDigitRun 3 s) = true) :
    check_rules_core cfg s = (true, reasonA3) := by
  unfold check_rules_core
  rw [hct]
  simp [h4, h3]

/-- Inversion for a non-matching result of the cascade: the only `false`
result is the final ordinary-number arm, so every earlier guard failed. -/
theorem check_core_false (cfg : RuleConfig) (s r : String)
    (h : check_rules_core cfg s = (false, r)) :
    r = reasonOrdinary
    ∧ findCustomTarget cfg.CUSTOM_TARGETS s = none
    ∧ (cfg.ENABLE_A4 && hasDigitRun 4 s) = false
    ∧ (cfg.ENABLE_A3 && hasDigitRun 3 s) = false
    ∧ findSeqRun forward_seq 5 s = none
    ∧ findSeqRun backward_seq 5 s = none
    ∧ (if cfg.ENABLE_ABCD then findSeqRun forward_seq 4 s else none) = none
    ∧ (if cfg.ENABLE_ABCD then findSeqRun backward_seq 4 s else none) = none
    ∧ (if cfg.ENABLE_ABC then findSeqRun forward_seq 3 s else none) = none
    ∧ (if cfg.ENABLE_ABC then findSeqRun backward_seq 3 s else none) = none := by
  unfold check_rules_core at h
  split at h
  · exact absurd h (by simp)
  · split at h
    · exact absurd h (by simp)
    · split at h
      · exact absurd h (by simp)
      · split at h
        · exact absurd h (by simp)
        · split at h
          · exact absurd h (by simp)
          · split at h
            · exact absurd h (by simp)
            · split at h
              · exact absurd h (by simp)
              · split at h
                · exact absurd h (by simp)
                · split at h
                  · exact absurd h (by simp)
                  · simp_all

/-- Inversion for a matching result of the cascade: the result was produced by
exactly one arm, whose guard held, and the reason is that arm's designated
reason string. -/
theorem check_core_true (cfg : RuleConfig) (s r : String)
    (h : check_rules_core cfg s = (true, r)) :
    (∃ t, findCustomTarget cfg.CUSTOM_TARGETS s = some t ∧ r = reasonCustom t)
    ∨ ((cfg.ENABLE_A4 && hasDigitRun 4 s) = true ∧ r = reasonA4)
    ∨ ((cfg.ENABLE_A3 && hasDigitRun 3 s) = true ∧ r = reasonA3)
    ∨ (∃ sub, findSeqRun forward_seq 5 s = some sub ∧ r = reasonF5 sub)
    ∨ (∃ sub, findSeqRun backward_seq 5 s = some sub ∧ r = reasonB5 sub)
    ∨ (cfg.ENABLE_ABCD = true ∧ ∃ sub, findSeqRun forward_seq 4 s = some sub ∧ r = reasonF4 sub)
    ∨ (cfg.ENABLE_ABCD = true ∧ ∃ sub, findSeqRun backward_seq 4 s = some sub ∧ r = reasonB4 sub)
    ∨ (cfg.ENABLE_ABC = true ∧ ∃ sub, findSeqRun forward_seq 3 s = some sub ∧ r = reasonF3 sub)
    ∨ (cfg.ENABLE_ABC = true ∧ ∃ sub, findSeqRun backward_seq 3 s = some sub ∧ r = reasonB3 sub) := by
  unfold check_rules_core at h
  split at h
  case _ t heq =>
    exact Or.inl ⟨t, heq, by injection h with h1 h2; exact h2.symm⟩
  split at h
  case _ h4 =>
    exact Or.inr (Or.inl ⟨h4, by injection h with h1 h2; exact h2.symm⟩)
  split at h
  case _ h3 =>
    exact Or.inr (Or.inr (Or.inl ⟨h3, by injection h with h1 h2; exact h2.symm⟩))
  split at h
  case _ sub heq =>
    refine Or.inr (Or.inr (Or.inr (Or.inl ⟨sub, heq, ?_⟩)))
    injection h with h1 h2; exact h2.symm
  split at h
  case _ sub heq =>
    refine Or.inr (Or.inr (Or.inr (Or.inr (Or.inl ⟨sub, heq, ?_⟩))))
    injection h with h1 h2; exact h2.symm
  split at h
  case _ sub heq =>
    refine Or.inr (Or.inr (Or.inr (Or.inr (Or.inr (Or.inl ?_)))))
    have hgate : cfg.ENABLE_ABCD = true ∧ findSeqRun forward_seq 4 s = some sub := by
      by_cases hb : cfg.ENABLE_ABCD = true
      · constructor
        · exact hb
        · simpa [hb] using heq
      · simp [hb] at heq
    exact ⟨hgate.1, sub, hgate.2, by injection h with h1 h2; exact h2.symm⟩
  split at h
  case _ sub heq =>
    refine Or.inr (Or.inr (Or.inr (Or.inr (Or.inr (Or.inr (Or.inl ?_))))))
    have hgate : cfg.ENABLE_ABCD = true ∧ findSeqRun backward_seq 4 s = some sub := by
      by_cases hb : cfg.ENABLE_ABCD = true
      · constructor
        · exact hb
        · simpa [hb] using heq
      · simp [hb] at heq
    exact ⟨hgate.1, sub, hgate.2, by injection h with h1 h2; exact h2.symm⟩
  split at h
  case _ sub heq =>
    refine Or.inr (Or.inr (Or.inr (Or.inr (Or.inr (Or.inr (Or.inr (Or.inl ?_)))))))
    have hgate : cfg.ENABLE_ABC = true ∧ findSeqRun forward_seq 3 s = some sub := by
      by_cases hb : cfg.ENABLE_ABC = true
      · constructor
        · exact hb
        · simpa [hb] using heq
      · simp [hb] at heq
    exact ⟨hgate.1, sub, hgate.2, by injection h with h1 h2; exact h2.symm⟩
  split at h
  case _ sub heq =>
    refine Or.inr (Or.inr (Or.inr (Or.inr (Or.inr (Or.inr (Or.inr (Or.inr ?_)))))))
    have hgate : cfg.ENABLE_ABC = true ∧ findSeqRun backward_seq 3 s = some sub := by
      by_cases hb : cfg.ENABLE_ABC = true
      · constructor
        · exact hb
        · simpa [hb] using heq
      · simp [hb] at heq
    exact ⟨hgate.1, sub, hgate.2, by injection h with h1 h2; exact h2.symm⟩
  · exact absurd h (by simp)

/-! Helper lemmas about the scheduler model. -/

/-- Consuming a round's results never dispatches a new round: no `dispatch`
event occurs in the trace of `processRound`. -/
theorem processRound_no_dispatch {α : Type} (results : List (WorkerResult α))
    (inputs : Nat → String) (g : Nat) (n : Nat) :
    Ev.dispatch n ∉ (processRound results inputs g).1 := by
  induction results generalizing g with
  | nil => simp [processRound]
  | cons res rest ih =>
    by_cases hf : res.status = "FOUND"
    · cases hd : decideInput (inputs g) with
      | Stop => simp [processRound, hf, hd]
      | Continue =>
        simp only [processRound, hf, hd, if_true, eq_self_iff_true]
        intro hmem
        rcases List.mem_cons.mp hmem with h1 | hmem
        · exact Ev.noConfusion h1
        rcases List.mem_cons.mp hmem with h1 | hmem
        · exact Ev.noConfusion h1
        · exact ih (g + 1) hmem
    · simp only [processRound, if_neg hf]
      intro hmem
      rcases List.mem_cons.mp hmem with h1 | hmem
      · exact Ev.noConfusion h1
      · exact ih g hmem

/-- If consuming a round did not reach `sys.exit`, every result of the round
was consumed and counted: the trace holds exactly one counter-increment event
per worker result. -/
theorem processRound_countP {α : Type} (results : List (WorkerResult α))
    (inputs : Nat → String) (g : Nat)
    (h : (processRound results inputs g).2.2 = false) :
    List.countP isCountEv (processRound results inputs g).1 = results.length := by
  induction results generalizing g with
  | nil => simp [processRound]
  | cons res rest ih =>
    by_cases hf : res.status = "FOUND"
    · cases hd : decideInput (inputs g) with
      | Stop => simp [processRound, hf, hd] at h
      | Continue =>
        simp only [processRound, hf, hd, if_true, eq_self_iff_true] at h ⊢
        have := ih (g + 1) h
        simp [List.countP_cons, isCountEv]
        omega
    · simp only [processRound, if_neg hf] at h ⊢
      have := ih g h
      simp [List.countP_cons, isCountEv]
      omega

/-- If consuming a round reached `sys.exit`, the round's trace ends with the
exit event carrying exit code 0. -/
theorem processRound_exit {α : Type} (results : List (WorkerResult α))
    (inputs : Nat → String) (g : Nat)
    (h : (processRound results inputs g).2.2 = true) :
    ∃ t0, (processRound results inputs g).1 = t0 ++ [Ev.exit 0] := by
  induction results generalizing g with
  | nil => simp [processRound] at h
  | cons res rest ih =>
    by_cases hf : res.status = "FOUND"
    · cases hd : decideInput (inputs g) with
      | Stop =>
        refine ⟨[Ev.count ("FOUND"), Ev.gate], ?_⟩
        simp [processRound, hf, hd]
      | Continue =>
        simp only [processRound, hf, hd, if_true, eq_self_iff_true] at h ⊢
        obtain ⟨t0, ht0⟩ := ih (g + 1) h
        exact ⟨Ev.count ("FOUND") :: Ev.gate :: t0, by simp [ht0]⟩
    · simp only [processRound, if_neg hf] at h ⊢
      obtain ⟨t0, ht0⟩ := ih g h
      exact ⟨Ev.count res.status :: t0, by simp [ht0]⟩

/-- Unfolding of one scheduler round that did not stop: the round trace is
followed by the pacing delay and only then the rest of the schedule. -/
theorem schedAux_cons_continue {α : Type} (r : List (WorkerResult α))
    (rest : List (List (WorkerResult α))) (inputs : Nat → String) (g : Nat)
    (h : (processRound r inputs g).2.2 = false) :
    schedAux (r :: rest) inputs g =
      Ev.dispatch r.length :: (processRound r inputs g).1
        ++ Ev.sleep :: schedAux rest inputs (processRound r inputs g).2.1 := by
  simp only [schedAux, h]
  simp

/-- Unfolding of one scheduler round that stopped: the whole remaining trace
is that round's trace, whatever rounds would have followed. -/
theorem schedAux_cons_stop {α : Type} (r : List (WorkerResult α))
    (rest : List (List (WorkerResult α))) (inputs : Nat → String) (g : Nat)
    (h : (processRound r inputs g).2.2 = true) :
    schedAux (r :: rest) inputs g = Ev.dispatch r.length :: (processRound r inputs g).1 := by
  simp only [schedAux, h]
  simp

/-- Unfolding of the round consumption at a FOUND result whose gate resolves
to continue: the result is counted, the gate is presented immediately, and
only afterwards are the remaining results consumed. -/
theorem processRound_found_continue {α : Type} (res : WorkerResult α)
    (rest : List (WorkerResult α)) (inputs : Nat → String) (g : Nat)
    (hf : res.status = "FOUND") (hc : decideInput (inputs g) = Decision.Continue) :
    processRound (res :: rest) inputs g =
      (Ev.count ("FOUND") :: Ev.gate :: (processRound rest inputs (g + 1)).1,
        (processRound rest inputs (g + 1)).2.1,
        (processRound rest inputs (g + 1)).2.2) := by
  simp [processRound, hf, hc]

/-- Unfolding of the round consumption at a FOUND result whose gate resolves
to stop: the result is counted, the gate is presented, and the process exits
with code 0; nothing further is consumed. -/
theorem processRound_found_stop {α : Type} (res : WorkerResult α)
    (rest : List (WorkerResult α)) (inputs : Nat → String) (g : Nat)
    (hf : res.status = "FOUND") (hc : decideInput (inputs g) = Decision.Stop) :
    processRound (res :: rest) inputs g =
      ([Ev.count ("FOUND"), Ev.gate, Ev.exit 0], g + 1, true) := by
  simp [processRound, hf, hc]

/-! The claims. -/

/-- C1: every non-empty candidate containing a configured literal target
matches, the cited target is the first one in configured list order (the
`find?` result), the reason names it, and this holds for every toggle setting;
in particular "88812345" with target "888" configured matches with a reason
citing "888". -/
theorem C1_literal_targets (cfg : RuleConfig) (s : String) (hne : s ≠ "")
    (hany : cfg.CUSTOM_TARGETS.any (fun t => strContains s t) = true) :
    (∃ t, findCustomTarget cfg.CUSTOM_TARGETS s = some t
        ∧ check_number_rules cfg (some s) = (true, reasonCustom t)
        ∧ strContains s t = true
        ∧ strContains (reasonCustom t) t = true)
    ∧ check_number_rules defaultConfig (some ("88812345")) = (true, reasonCustom ("888"))
    ∧ strContains (reasonCustom ("888")) "888" = true := by
  refine ⟨?_, by decide, by decide⟩
  have hsome : (cfg.CUSTOM_TARGETS.find? (fun t => strContains s t)).isSome := by
    rw [List.find?_isSome]
    exact List.any_eq_true.mp hany
  obtain ⟨t, ht⟩ := Option.isSome_iff_exists.mp hsome
  have ht : findCustomTarget cfg.CUSTOM_TARGETS s = some t := ht
  refine ⟨t, ht, ?_, List.find?_some ht, reasonCustom_contains t⟩
  have hc := check_core_custom cfg s t ht
  simp [check_number_rules, hne, hc]

/-- Witness for C1 at the spec's concrete scenario. -/
theorem C1_literal_targets_witness :
    (∃ t, findCustomTarget defaultConfig.CUSTOM_TARGETS ("88812345") = some t
        ∧ check_number_rules defaultConfig (some ("88812345")) = (true, reasonCustom t)
        ∧ strContains ("88812345") t = true
        ∧ strContains (reasonCustom t) t = true)
    ∧ check_number_rules defaultConfig (some ("88812345")) = (true, reasonCustom ("888"))
    ∧ strContains (reasonCustom ("888")) "888" = true :=
  C1_literal_targets defaultConfig ("88812345") (by decide) (by decide)

/-- C2: the 5-digit ascending/descending run check is unconditional — any
non-empty candidate containing a 5-wide window of "0123456789" or of
"9876543210" matches under every configuration, and in particular "12345"
matches under every setting of the four toggles. -/
theorem C2_five_run_unconditional (cfg : RuleConfig) (s : String) (hne : s ≠ "")
    (h5 : ((seqWindows forward_seq 5).any (fun sub => strContains s sub)
        || (seqWindows backward_seq 5).any (fun sub => strContains s sub)) = true) :
    (check_number_rules cfg (some s)).1 = true
    ∧ ∀ a4 a3 abc abcd : Bool,
        (check_number_rules ⟨a4, a3, abc, abcd, CUSTOM_TARGETS⟩ (some ("12345"))).1 = true := by
  refine ⟨?_, by decide⟩
  have hred : check_number_rules cfg (some s) = check_rules_core cfg s := by
    simp [check_number_rules, hne]
  rw [hred]
  rcases hres : check_rules_core cfg s with ⟨b, r⟩
  cases b with
  | true => rfl
  | false =>
    exfalso
    have hinv := check_core_false cfg s r hres
    simp only [Bool.or_eq_true] at h5
    rcases h5 with ha | ha
    · obtain ⟨sub, hmem, hp⟩ := List.any_eq_true.mp ha
      have hnone : findSeqRun forward_seq 5 s = none := hinv.2.2.2.2.1
      exact (List.find?_eq_none.mp hnone sub hmem) hp
    · obtain ⟨sub, hmem, hp⟩ := List.any_eq_true.mp ha
      have hnone : findSeqRun backward_seq 5 s = none := hinv.2.2.2.2.2.1
      exact (List.find?_eq_none.mp hnone sub hmem) hp

/-- Witness for C2 at the spec's concrete scenario "12345". -/
theorem C2_five_run_unconditional_witness :
    (check_number_rules defaultConfig (some ("12345"))).1 = true
    ∧ ∀ a4 a3 abc abcd : Bool,
        (check_number_rules ⟨a4, a3, abc, abcd, CUSTOM_TARGETS⟩ (some ("12345"))).1 = true :=
  C2_five_run_unconditional defaultConfig ("12345") (by decide) (by decide)

/-- C4: with the 4-run rule enabled, any candidate containing a run of four
identical digits matches; when no literal target occurs (and in particular
even with the 3-run rule also enabled) the reason is the A4 reason; the
concrete scenario "77771234" under the default configuration matches with the
A4 reason. -/
theorem C4_four_run (cfg : RuleConfig) (s : String) (h4e : cfg.ENABLE_A4 = true)
    (hrun : hasDigitRun 4 s = true) :
    (check_number_rules cfg (some s)).1 = true
    ∧ (findCustomTarget cfg.CUSTOM_TARGETS s = none → cfg.ENABLE_A3 = true →
        check_number_rules cfg (some s) = (true, reasonA4))
    ∧ check_number_rules defaultConfig (some ("77771234")) = (true, reasonA4) := by
  have hne : s ≠ "" := by
    intro he
    rw [he] at hrun
    exact absurd hrun (by decide)
  have hred : check_number_rules cfg (some s) = check_rules_core cfg s := by
    simp [check_number_rules, hne]
  have hcond : (cfg.ENABLE_A4 && hasDigitRun 4 s) = true := by simp [h4e, hrun]
  refine ⟨?_, ?_, by decide⟩
  · rw [hred]
    cases hct : findCustomTarget cfg.CUSTOM_TARGETS s with
    | some t => rw [check_core_custom cfg s t hct]
    | none => rw [check_core_A4 cfg s hct hcond]
  · intro hct h3e
    rw [hred, check_core_A4 cfg s hct hcond]

/-- Witness for C4 at the spec's concrete scenario "77771234". -/
theorem C4_four_run_witness :
    (check_number_rules defaultConfig (some ("77771234"))).1 = true
    ∧ (findCustomTarget defaultConfig.CUSTOM_TARGETS ("77771234") = none →
        defaultConfig.ENABLE_A3 = true →
        check_number_rules defaultConfig (some ("77771234")) = (true, reasonA4))
    ∧ check_number_rules defaultConfig (some ("77771234")) = (true, reasonA4) :=
  C4_four_run defaultConfig ("77771234") (by decide) (by decide)

/-- C5: a candidate with a 3-run but no 4-run, no configured literal target
and no ascending/descending run structure matches exactly when the 3-run rule
is enabled: with `ENABLE_A3 = true` it matches, with `ENABLE_A3 = false` (all
else equal) it does not. -/
theorem C5_three_run_toggle (targets : List String) (a4 abc abcd : Bool) (s : String)
    (hct : findCustomTarget targets s = none)
    (h3 : hasDigitRun 3 s = true) (h4 : hasDigitRun 4 s = false)
    (hf5 : findSeqRun forward_seq 5 s = none) (hb5 : findSeqRun backward_seq 5 s = none)
    (hf4 : findSeqRun forward_seq 4 s = none) (hb4 : findSeqRun backward_seq 4 s = none)
    (hf3 : findSeqRun forward_seq 3 s = none) (hb3 : findSeqRun backward_seq 3 s = none) :
    (check_number_rules ⟨a4, true, abc, abcd, targets⟩ (some s)).1 = true
    ∧ (check_number_rules ⟨a4, false, abc, abcd, targets⟩ (some s)).1 = false := by
  have hne : s ≠ "" := by
    intro he
    rw [he] at h3
    exact absurd h3 (by decide)
  constructor
  · have hcore : check_rules_core ⟨a4, true, abc, abcd, targets⟩ s = (true, reasonA3) := by
      apply check_core_A3
      · exact hct
      · show (a4 && hasDigitRun 4 s) = false
        rw [h4]
        exact Bool.and_false a4
      · show (true && hasDigitRun 3 s) = true
        rw [h3]
        rfl
    simp [check_number_rules, hne, hcore]
  · have hcore : check_rules_core ⟨a4, false, abc, abcd, targets⟩ s =
        (false, reasonOrdinary) := by
      simp [check_rules_core, hct, h4, hf5, hb5, hf4, hb4, hf3, hb3]
    simp [check_number_rules, hne, hcore]

/-- Witness for C5 at the candidate "111". -/
theorem C5_three_run_toggle_witness :
    (check_number_rules ⟨true, true, false, true, CUSTOM_TARGETS⟩ (some ("111"))).1 = true
    ∧ (check_number_rules ⟨true, false, false, true, CUSTOM_TARGETS⟩ (some ("111"))).1 = false :=
  C5_three_run_toggle CUSTOM_TARGETS true false true ("111") (by decide) (by decide)
    (by decide) (by decide) (by decide) (by decide) (by decide) (by decide) (by decide)

/-- C6: a non-matching classification happens in exactly two cases, each with
its designated reason string: an empty or null candidate yields the
empty-input reason (scanner.py line 73, before any rule is evaluated), and a
non-empty candidate firing no rule yields the ordinary-number reason
(scanner.py line 120); in particular "13579" under the default configuration
yields `(false, ordinary)`. -/
theorem C6_nonmatch_cases (cfg cfg2 : RuleConfig) (inp : Option String)
    (hfalse : (check_number_rules cfg inp).1 = false) :
    (((inp = none ∨ inp = some ("")) ∧ (check_number_rules cfg inp).2 = reasonEmpty)
      ∨ ((inp ≠ none ∧ inp ≠ some ("")) ∧ (check_number_rules cfg inp).2 = reasonOrdinary))
    ∧ check_number_rules cfg2 none = (false, reasonEmpty)
    ∧ check_number_rules cfg2 (some ("")) = (false, reasonEmpty)
    ∧ check_number_rules defaultConfig (some ("13579")) = (false, reasonOrdinary) := by
  refine ⟨?_, rfl, by simp [check_number_rules], by decide⟩
  cases inp with
  | none => exact Or.inl ⟨Or.inl rfl, rfl⟩
  | some s =>
    by_cases he : s = ""
    · subst he
      exact Or.inl ⟨Or.inr rfl, by simp [check_number_rules]⟩
    · refine Or.inr ⟨⟨by simp, by simp [he]⟩, ?_⟩
      have hred : check_number_rules cfg (some s) = check_rules_core cfg s := by
        simp [check_number_rules, he]
      rw [hred] at hfalse ⊢
      rcases hres : check_rules_core cfg s with ⟨b, r⟩
      rw [hres] at hfalse
      have hb : b = false := hfalse
      subst hb
      exact (check_core_false cfg s r hres).1

/-- Witness for C6 at the spec's concrete scenario "13579". -/
theorem C6_nonmatch_cases_witness :
    (((some ("13579") = none ∨ some ("13579") = some (""))
        ∧ (check_number_rules defaultConfig (some ("13579"))).2 = reasonEmpty)
      ∨ ((some ("13579") ≠ none ∧ some ("13579") ≠ some (""))
        ∧ (check_number_rules defaultConfig (some ("13579"))).2 = reasonOrdinary))
    ∧ check_number_rules defaultConfig none = (false, reasonEmpty)
    ∧ check_number_rules defaultConfig (some ("")) = (false, reasonEmpty)
    ∧ check_number_rules defaultConfig (some ("13579")) = (false, reasonOrdinary) :=
  C6_nonmatch_cases defaultConfig defaultConfig (some ("13579")) (by decide)

/-- C7: every match carries the designated reason string of the rule that
fired — the result is the reason of exactly one arm whose firing condition
holds — and whenever a sequence rule fired, the reason contains the exact run
substring and that substring occurs in the candidate. -/
theorem C7_reason_audit (cfg : RuleConfig) (s r : String)
    (h : check_number_rules cfg (some s) = (true, r)) :
    (∃ t, findCustomTarget cfg.CUSTOM_TARGETS s = some t ∧ r = reasonCustom t
        ∧ strContains s t = true ∧ strContains r t = true)
    ∨ ((cfg.ENABLE_A4 && hasDigitRun 4 s) = true ∧ r = reasonA4)
    ∨ ((cfg.ENABLE_A3 && hasDigitRun 3 s) = true ∧ r = reasonA3)
    ∨ (∃ sub, findSeqRun forward_seq 5 s = some sub ∧ r = reasonF5 sub
        ∧ strContains s sub = true ∧ strContains r sub = true)
    ∨ (∃ sub, findSeqRun backward_seq 5 s = some sub ∧ r = reasonB5 sub
        ∧ strContains s sub = true ∧ strContains r sub = true)
    ∨ (cfg.ENABLE_ABCD = true ∧ ∃ sub, findSeqRun forward_seq 4 s = some sub
        ∧ r = reasonF4 sub ∧ strContains s sub = true ∧ strContains r sub = true)
    ∨ (cfg.ENABLE_ABCD = true ∧ ∃ sub, findSeqRun backward_seq 4 s = some sub
        ∧ r = reasonB4 sub ∧ strContains s sub = true ∧ strContains r sub = true)
    ∨ (cfg.ENABLE_ABC = true ∧ ∃ sub, findSeqRun forward_seq 3 s = some sub
        ∧ r = reasonF3 sub ∧ strContains s sub = true ∧ strContains r sub = true)
    ∨ (cfg.ENABLE_ABC = true ∧ ∃ sub, findSeqRun backward_seq 3 s = some sub
        ∧ r = reasonB3 sub ∧ strContains s sub = true ∧ strContains r sub = true) := by
  have hne : s ≠ "" := by
    intro he
    subst he
    simp [check_number_rules] at h
  have hcore : check_rules_core cfg s = (true, r) := by
    rw [← h]
    simp [check_number_rules, hne]
  rcases check_core_true cfg s r hcore with hc | hc | hc | hc | hc | hc | hc | hc | hc
  · obtain ⟨t, ht, hr⟩ := hc
    refine Or.inl ⟨t, ht, hr, List.find?_some ht, ?_⟩
    rw [hr]
    exact reasonCustom_contains t
  · exact Or.inr (Or.inl hc)
  · exact Or.inr (Or.inr (Or.inl hc))
  · obtain ⟨sub, hsub, hr⟩ := hc
    refine Or.inr (Or.inr (Or.inr (Or.inl ⟨sub, hsub, hr, List.find?_some hsub, ?_⟩)))
    rw [hr]
    exact reason_contains_sub _ sub
  · obtain ⟨sub, hsub, hr⟩ := hc
    refine Or.inr (Or.inr (Or.inr (Or.inr (Or.inl ⟨sub, hsub, hr, List.find?_some hsub, ?_⟩))))
    rw [hr]
    exact reason_contains_sub _ sub
  · obtain ⟨hb, sub, hsub, hr⟩ := hc
    refine Or.inr (Or.inr (Or.inr (Or.inr (Or.inr (Or.inl
      ⟨hb, sub, hsub, hr, List.find?_some hsub, ?_⟩)))))
    rw [hr]
    exact reason_contains_sub _ sub
  · obtain ⟨hb, sub, hsub, hr⟩ := hc
    refine Or.inr (Or.inr (Or.inr (Or.inr (Or.inr (Or.inr (Or.inl
      ⟨hb, sub, hsub, hr, List.find?_some hsub, ?_⟩))))))
    rw [hr]
    exact reason_contains_sub _ sub
  · obtain ⟨hb, sub, hsub, hr⟩ := hc
    refine Or.inr (Or.inr (Or.inr (Or.inr (Or.inr (Or.inr (Or.inr (Or.inl
      ⟨hb, sub, hsub, hr, List.find?_some hsub, ?_⟩)))))))
    rw [hr]
    exact reason_contains_sub _ sub
  · obtain ⟨hb, sub, hsub, hr⟩ := hc
    refine Or.inr (Or.inr (Or.inr (Or.inr (Or.inr (Or.inr (Or.inr (Or.inr
      ⟨hb, sub, hsub, hr, List.find?_some hsub, ?_⟩)))))))
    rw [hr]
    exact reason_contains_sub _ sub

/-- Witness for C7 at the candidate "12345", matched by the forward 5-run. -/
theorem C7_reason_audit_witness :
    (∃ t, findCustomTarget defaultConfig.CUSTOM_TARGETS ("12345") = some t
        ∧ reasonF5 ("12345") = reasonCustom t
        ∧ strContains ("12345") t = true ∧ strContains (reasonF5 ("12345")) t = true)
    ∨ ((defaultConfig.ENABLE_A4 && hasDigitRun 4 "12345") = true
        ∧ reasonF5 ("12345") = reasonA4)
    ∨ ((defaultConfig.ENABLE_A3 && hasDigitRun 3 "12345") = true
        ∧ reasonF5 ("12345") = reasonA3)
    ∨ (∃ sub, findSeqRun forward_seq 5 "12345" = some sub
        ∧ reasonF5 ("12345") = reasonF5 sub
        ∧ strContains ("12345") sub = true ∧ strContains (reasonF5 ("12345")) sub = true)
    ∨ (∃ sub, findSeqRun backward_seq 5 "12345" = some sub
        ∧ reasonF5 ("12345") = reasonB5 sub
        ∧ strContains ("12345") sub = true ∧ strContains (reasonF5 ("12345")) sub = true)
    ∨ (defaultConfig.ENABLE_ABCD = true ∧ ∃ sub, findSeqRun forward_seq 4 "12345" = some sub
        ∧ reasonF5 ("12345") = reasonF4 sub
        ∧ strContains ("12345") sub = true ∧ strContains (reasonF5 ("12345")) sub = true)
    ∨ (defaultConfig.ENABLE_ABCD = true ∧ ∃ sub, findSeqRun backward_seq 4 "12345" = some sub
        ∧ reasonF5 ("12345") = reasonB4 sub
        ∧ strContains ("12345") sub = true ∧ strContains (reasonF5 ("12345")) sub = true)
    ∨ (defaultConfig.ENABLE_ABC = true ∧ ∃ sub, findSeqRun forward_seq 3 "12345" = some sub
        ∧ reasonF5 ("12345") = reasonF3 sub
        ∧ strContains ("12345") sub = true ∧ strContains (reasonF5 ("12345")) sub = true)
    ∨ (defaultConfig.ENABLE_ABC = true ∧ ∃ sub, findSeqRun backward_seq 3 "12345" = some sub
        ∧ reasonF5 ("12345") = reasonB3 sub
        ∧ strContains ("12345") sub = true ∧ strContains (reasonF5 ("12345")) sub = true) :=
  C7_reason_audit defaultConfig ("12345") (reasonF5 ("12345")) (by decide)

/-- C9: the model of `worker_task` is a total function of the fetch outcome —
no exception propagates to the scheduler — the exceptional path (any failure
raised inside the `try` body, be it from the query or from classification)
yields the ERROR dict, and every possible return value has status FOUND,
RETRY or ERROR. -/
theorem C9_worker_total {α : Type} (cfg : RuleConfig) (fetch : FetchOutcome α) :
    ((worker_task cfg fetch).status = "FOUND" ∨ (worker_task cfg fetch).status = "RETRY"
      ∨ (worker_task cfg fetch).status = "ERROR")
    ∧ worker_task cfg (FetchOutcome.exn : FetchOutcome α) = errorResult α := by
  refine ⟨?_, rfl⟩
  cases fetch with
  | exn => exact Or.inr (Or.inr rfl)
  | empty => exact Or.inr (Or.inl rfl)
  | ok number raw =>
    by_cases he : number = ""
    · simp [worker_task, he, retryResult]
    · by_cases hg : (check_number_rules cfg (some number)).1 = true
      · simp [worker_task, he, hg]
      · simp only [Bool.not_eq_true] at hg
        simp [worker_task, he, hg, retryResult]

/-- Witness for C9 at an exception-raising fetch. -/
theorem C9_worker_total_witness :
    ((worker_task defaultConfig (FetchOutcome.exn : FetchOutcome Nat)).status = "FOUND"
      ∨ (worker_task defaultConfig (FetchOutcome.exn : FetchOutcome Nat)).status = "RETRY"
      ∨ (worker_task defaultConfig (FetchOutcome.exn : FetchOutcome Nat)).status = "ERROR")
    ∧ worker_task defaultConfig (FetchOutcome.exn : FetchOutcome Nat) = errorResult Nat :=
  C9_worker_total defaultConfig FetchOutcome.exn

/-- C10: a fetched candidate that fails classification and a fetch that
produced no candidate yield literally the same worker outcome, the bare RETRY
dict — the scheduler cannot distinguish a classified no-match from a
transient or empty fetch at the worker's interface. -/
theorem C10_retry_conflation {α : Type} (cfg : RuleConfig) (n : String) (raw : α)
    (hne : n ≠ "") (hnm : (check_number_rules cfg (some n)).1 = false) :
    worker_task cfg (FetchOutcome.ok n raw) = retryResult α
    ∧ worker_task cfg (FetchOutcome.empty : FetchOutcome α) = retryResult α
    ∧ worker_task cfg (FetchOutcome.ok n raw)
        = worker_task cfg (FetchOutcome.empty : FetchOutcome α) := by
  have h1 : worker_task cfg (FetchOutcome.ok n raw) = retryResult α := by
    simp [worker_task, hne, hnm]
  exact ⟨h1, rfl, h1⟩

/-- Witness for C10 at the no-match candidate "13579". -/
theorem C10_retry_conflation_witness :
    worker_task defaultConfig (FetchOutcome.ok ("13579") (0 : Nat)) = retryResult Nat
    ∧ worker_task defaultConfig (FetchOutcome.empty : FetchOutcome Nat) = retryResult Nat
    ∧ worker_task defaultConfig (FetchOutcome.ok ("13579") (0 : Nat))
        = worker_task defaultConfig (FetchOutcome.empty : FetchOutcome Nat) :=
  C10_retry_conflation defaultConfig ("13579") 0 (by decide) (by decide)

/-- C3 counterexample: in the spec's own scenario — ten workers, the FOUND
result consumed first, operator continues — the gate event occurs before the
remaining nine count events, so it is false that the outcomes of all remaining
workers are counted before the gate is presented. -/
theorem C3_counterexample : ¬ countsPrecedeGates scenarioTrace := by decide

/-- C3 as amended: when a worker returns a match mid-round, the gate is
presented immediately after that worker's outcome is counted; the remaining
workers' outcomes are counted after the gate resolves with a continue
decision but still before any new round is dispatched; and no new round is
dispatched until the gate resolves. -/
theorem C3_gate_ordering {α : Type} (res : WorkerResult α)
    (rest : List (WorkerResult α)) (others : List (List (WorkerResult α)))
    (inputs : Nat → String)
    (hf : res.status = "FOUND") (hc : decideInput (inputs 0) = Decision.Continue)
    (hex : (processRound rest inputs 1).2.2 = false) :
    sched ((res :: rest) :: others) inputs =
      Ev.dispatch (rest.length + 1) :: Ev.count ("FOUND") :: Ev.gate ::
        ((processRound rest inputs 1).1
          ++ Ev.sleep :: schedAux others inputs (processRound rest inputs 1).2.1)
    ∧ List.countP isCountEv (processRound (res :: rest) inputs 0).1 = rest.length + 1
    ∧ (∀ n, Ev.dispatch n ∉ (processRound (res :: rest) inputs 0).1) := by
  have hpr := processRound_found_continue res rest inputs 0 hf hc
  have hex0 : (processRound (res :: rest) inputs 0).2.2 = false := by
    rw [hpr]
    exact hex
  refine ⟨?_, ?_, fun n => processRound_no_dispatch (res :: rest) inputs 0 n⟩
  · show schedAux ((res :: rest) :: others) inputs 0 = _
    rw [schedAux_cons_continue (res :: rest) others inputs 0 hex0, hpr]
    simp
  · have hcount := processRound_countP (res :: rest) inputs 0 hex0
    simpa using hcount

/-- Witness for C3 as amended, at the spec's ten-worker scenario. -/
theorem C3_gate_ordering_witness :
    sched (scenarioRound :: ([] : List (List (WorkerResult Unit)))) (fun _ => "") =
      Ev.dispatch ((List.replicate 9 (retryResult Unit)).length + 1) :: Ev.count ("FOUND") ::
        Ev.gate ::
        ((processRound (List.replicate 9 (retryResult Unit)) (fun _ => "") 1).1
          ++ Ev.sleep :: schedAux ([] : List (List (WorkerResult Unit))) (fun _ => "")
              (processRound (List.replicate 9 (retryResult Unit)) (fun _ => "") 1).2.1)
    ∧ List.countP isCountEv (processRound scenarioRound (fun _ => "") 0).1 =
        (List.replicate 9 (retryResult Unit)).length + 1
    ∧ (∀ n, Ev.dispatch n ∉ (processRound scenarioRound (fun _ => "") 0).1) :=
  C3_gate_ordering (WorkerResult.mk ("FOUND") (some ("88812345")) (some (reasonCustom ("888")))
      (some ())) (List.replicate 9 (retryResult Unit)) [] (fun _ => "")
    (by decide) (by decide) (by decide)

/-- C8: the gate decision is Stop exactly when the operator's input, stripped
and lowercased, is the token "q" (the empty input in particular continues);
and a round that reached a Stop decision ends the whole schedule — no further
round is dispatched, nothing is dispatched inside the round's own trace, and
the trace ends with a clean exit carrying exit code 0. -/
theorem C8_gate_stop {α : Type} (s : String) (r : List (WorkerResult α))
    (rest : List (List (WorkerResult α))) (inputs : Nat → String) (g : Nat)
    (hstop : (processRound r inputs g).2.2 = true) :
    (decideInput s = Decision.Stop ↔ pyLower (pyStrip s) = "q")
    ∧ decideInput ("") = Decision.Continue
    ∧ schedAux (r :: rest) inputs g = Ev.dispatch r.length :: (processRound r inputs g).1
    ∧ (∀ n, Ev.dispatch n ∉ (processRound r inputs g).1)
    ∧ (∃ t0, (processRound r inputs g).1 = t0 ++ [Ev.exit 0]) := by
  refine ⟨?_, by decide, schedAux_cons_stop r rest inputs g hstop,
    fun n => processRound_no_dispatch r inputs g n, processRound_exit r inputs g hstop⟩
  unfold decideInput
  by_cases hq : pyLower (pyStrip s) = "q"
  · simp [hq]
  · simp [hq]

/-- Witness for C8: a one-worker round where the operator answers " Q ". -/
theorem C8_gate_stop_witness :
    (decideInput (" Q ") = Decision.Stop ↔ pyLower (pyStrip (" Q ")) = "q")
    ∧ decideInput ("") = Decision.Continue
    ∧ schedAux ([WorkerResult.mk ("FOUND") (some ("88812345")) (some (reasonCustom ("888")))
          (some ())] :: ([] : List (List (WorkerResult Unit)))) (fun _ => " Q ") 0 =
        Ev.dispatch ([WorkerResult.mk ("FOUND") (some ("88812345")) (some (reasonCustom ("888")))
          (some ())] : List (WorkerResult Unit)).length ::
          (processRound [WorkerResult.mk ("FOUND") (some ("88812345"))
            (some (reasonCustom ("888"))) (some ())] (fun _ => " Q ") 0).1
    ∧ (∀ n, Ev.dispatch n ∉ (processRound [WorkerResult.mk ("FOUND") (some ("88812345"))
        (some (reasonCustom ("888"))) (some ())] (fun _ => " Q ") 0).1)
    ∧ (∃ t0, (processRound [WorkerResult.mk ("FOUND") (some ("88812345"))
        (some (reasonCustom ("888"))) (some ())] (fun _ => " Q ") 0).1 =
          t0 ++ [Ev.exit 0]) :=
  C8_gate_stop (" Q ") [WorkerResult.mk ("FOUND") (some ("88812345")) (some (reasonCustom ("888")))
    (some ())] [] (fun _ => " Q ") 0 (by decide)

end NovaScanner
